import Mathlib

/-!
Shallow embedding of the NovaCrypt market-data core (indicators, sentiment
aggregation, data-quality tracking, ingestion pipeline) for verification of
the specification's claims.

Modelling conventions:
* C++ `double` values are modelled as exact rationals (ℚ); the two places the
  source applies a transcendental function (`std::sqrt` in Bollinger-band and
  latency statistics, `std::exp` in sentiment decay) are modelled over ℝ with
  `Real.sqrt` / `Real.exp`.
* `std::chrono::system_clock::time_point` is modelled as a rational number of
  seconds; durations are differences of such numbers.
* `std::vector` / `std::queue` / `std::deque` are modelled as `List`, with the
  container's front at the list's head and `push_back` appending at the tail.
* A thrown `std::runtime_error` is modelled as a `Bool` result (`false` =
  exception) paired with the post-call state, since the C++ code mutates the
  quality tracker before throwing.
-/

namespace NovaCrypt

/-- `OHLCV` from `src/indicators/MarketData.h` (field `open` renamed `open_`
because `open` is a Lean keyword). -/
structure OHLCV where
  open_ : ℚ
  high : ℚ
  low : ℚ
  close : ℚ
  volume : ℚ
  timestamp : ℚ
  deriving DecidableEq

/-- An OHLCV bar whose four prices all equal `c`, used to feed close-driven
indicators. -/
def tickOf (c : ℚ) : OHLCV :=
  { open_ := c, high := c, low := c, close := c, volume := 0, timestamp := 0 }

/-! ## MovingAverage / SMA / EMA (`src/indicators/MarketData.cpp`) -/

/-- State of `MovingAverage` (and of its subclasses `SMA`, `EMA`): the period
and the stored window of values. -/
structure MovingAverage where
  period : Nat
  values : List ℚ
  deriving DecidableEq

/-- `MovingAverage::MovingAverage(period)`: empty window. -/
def MovingAverage.init (period : Nat) : MovingAverage :=
  { period := period, values := [] }

/-- `MovingAverage::update` (also `SMA::update`): push the close, evict the
oldest value once the window exceeds `period`. -/
def MovingAverage.update (m : MovingAverage) (d : OHLCV) : MovingAverage :=
  let vs := m.values ++ [d.close]
  { m with values := if m.period < vs.length then vs.tail else vs }

/-- `MovingAverage::getValue`: 0 on an empty window, else the arithmetic mean
of the stored values. `EMA` inherits this member unchanged. -/
def MovingAverage.getValue (m : MovingAverage) : ℚ :=
  if m.values = [] then 0 else m.values.sum / m.values.length

/-- `EMA`'s smoothing factor `alpha_ = 2.0 / (period + 1)`. -/
def emaAlpha (period : Nat) : ℚ := 2 / (period + 1)

/-- `EMA::update`: seed the window with the first close; afterwards push
`alpha*close + (1-alpha)*values.back()` and evict the oldest entry once the
window exceeds `period`. -/
def emaUpdate (m : MovingAverage) (d : OHLCV) : MovingAverage :=
  match m.values.getLast? with
  | none => { m with values := [d.close] }
  | some prev =>
    let e := emaAlpha m.period * d.close + (1 - emaAlpha m.period) * prev
    let vs := m.values ++ [e]
    { m with values := if m.period < vs.length then vs.tail else vs }

/-! ## RSI (`src/indicators/MarketData.cpp`) -/

/-- State of `RSI`: stored closes, windowed gains/losses and the cached
simple averages. -/
structure RSI where
  period : Nat
  values : List ℚ
  gains : List ℚ
  losses : List ℚ
  avgGain : ℚ
  avgLoss : ℚ
  deriving DecidableEq

/-- `RSI::RSI(period)`. -/
def RSI.init (period : Nat) : RSI :=
  { period := period, values := [], gains := [], losses := [],
    avgGain := 0, avgLoss := 0 }

/-- Push one entry at the back of a gains/losses window, evicting the front
entry once the window exceeds `period` (the `push_back` + conditional
`erase(begin())` pattern in `RSI::update`). -/
def rsiPush (period : Nat) (l : List ℚ) (x : ℚ) : List ℚ :=
  let l2 := l ++ [x]
  if period < l2.length then l2.tail else l2

/-- `RSI::update`: the first observation only seeds `values_`; later ones push
the signed change into the gains/losses windows (evicting oldest past
`period`) and recompute the simple averages. -/
def RSI.update (r : RSI) (d : OHLCV) : RSI :=
  match r.values.getLast? with
  | none => { r with values := [d.close] }
  | some prev =>
    let change := d.close - prev
    let g2 := rsiPush r.period r.gains (if 0 ≤ change then change else 0)
    let l2 := rsiPush r.period r.losses (if 0 ≤ change then 0 else -change)
    { r with
      values := r.values ++ [d.close],
      gains := g2, losses := l2,
      avgGain := g2.sum / g2.length,
      avgLoss := l2.sum / l2.length }

/-- `RSI::getValue`: 100 when the average loss is zero, otherwise
`100 - 100/(1 + avgGain/avgLoss)`. -/
def RSI.getValue (r : RSI) : ℚ :=
  if r.avgLoss = 0 then 100 else 100 - 100 / (1 + r.avgGain / r.avgLoss)

/-- Run an RSI of the given period over a list of closes. -/
def rsiRun (period : Nat) (cs : List ℚ) : RSI :=
  cs.foldl (fun r c => r.update (tickOf c)) (RSI.init period)

/-! ## MACD (`src/indicators/MarketData.cpp`) -/

/-- State of `MACD`: three EMAs plus the cached MACD and signal lines. -/
structure MACD where
  fastEMA : MovingAverage
  slowEMA : MovingAverage
  signalEMA : MovingAverage
  macdLine : ℚ
  signalLine : ℚ
  deriving DecidableEq

/-- `MACD::MACD(fastPeriod, slowPeriod, signalPeriod)`. -/
def MACD.init (fastPeriod slowPeriod signalPeriod : Nat) : MACD :=
  { fastEMA := MovingAverage.init fastPeriod,
    slowEMA := MovingAverage.init slowPeriod,
    signalEMA := MovingAverage.init signalPeriod,
    macdLine := 0, signalLine := 0 }

/-- `MACD::update`: update both EMAs, recompute the MACD line, feed it as a
dummy close into the signal EMA and cache the signal line. -/
def MACD.update (m : MACD) (d : OHLCV) : MACD :=
  let fast := emaUpdate m.fastEMA d
  let slow := emaUpdate m.slowEMA d
  let line := fast.getValue - slow.getValue
  let sig := emaUpdate m.signalEMA { d with close := line }
  { fastEMA := fast, slowEMA := slow, signalEMA := sig,
    macdLine := line, signalLine := sig.getValue }

/-- `MACD::getValue`. -/
def MACD.getValue (m : MACD) : ℚ := m.macdLine

/-- `MACD::getSignal`. -/
def MACD.getSignal (m : MACD) : ℚ := m.signalLine

/-- `MACD::getHistogram`. -/
def MACD.getHistogram (m : MACD) : ℚ := m.macdLine - m.signalLine

/-! ## BollingerBands (`src/indicators/MarketData.cpp`) -/

/-- State of `BollingerBands`: period, band width `stdDev_`, the inner SMA
and the stored close window. -/
structure BollingerBands where
  period : Nat
  stdDev : ℚ
  sma : MovingAverage
  values : List ℚ
  deriving DecidableEq

/-- `BollingerBands::BollingerBands(period, stdDev)`. -/
def BollingerBands.init (period : Nat) (stdDev : ℚ) : BollingerBands :=
  { period := period, stdDev := stdDev,
    sma := MovingAverage.init period, values := [] }

/-- `BollingerBands::update`: push the close (evicting past `period`) and
update the inner SMA. -/
def BollingerBands.update (b : BollingerBands) (d : OHLCV) : BollingerBands :=
  let vs := b.values ++ [d.close]
  { b with values := if b.period < vs.length then vs.tail else vs,
           sma := b.sma.update d }

/-- The population variance computed inside
`BollingerBands::calculateStandardDeviation` (the value handed to
`std::sqrt`). -/
def BollingerBands.variance (b : BollingerBands) : ℚ :=
  let mean := b.values.sum / b.values.length
  ((b.values.map (fun v => (v - mean) ^ 2)).sum) / b.values.length

/-- `BollingerBands::calculateStandardDeviation`: 0 on an empty window, else
the square root of the population variance. -/
noncomputable def BollingerBands.calculateStandardDeviation
    (b : BollingerBands) : ℝ :=
  if b.values = [] then 0 else Real.sqrt (b.variance : ℝ)

/-- `BollingerBands::getMiddleBand`. -/
def BollingerBands.getMiddleBand (b : BollingerBands) : ℚ := b.sma.getValue

/-- `BollingerBands::getUpperBand`. -/
noncomputable def BollingerBands.getUpperBand (b : BollingerBands) : ℝ :=
  (b.getMiddleBand : ℝ) + (b.stdDev : ℝ) * b.calculateStandardDeviation

/-- `BollingerBands::getLowerBand`. -/
noncomputable def BollingerBands.getLowerBand (b : BollingerBands) : ℝ :=
  (b.getMiddleBand : ℝ) - (b.stdDev : ℝ) * b.calculateStandardDeviation

/-! ## ATR (`src/indicators/MarketData.cpp`) -/

/-- State of `ATR`: period, stored closes, true-range window and cached ATR. -/
structure ATR where
  period : Nat
  values : List ℚ
  trueRanges : List ℚ
  currentATR : ℚ
  deriving DecidableEq

/-- `ATR::ATR(period)`. -/
def ATR.init (period : Nat) : ATR :=
  { period := period, values := [], trueRanges := [], currentATR := 0 }

/-- `ATR::update`: the first observation only seeds `values_`; later ones push
the true range `max(high-low, |high-prevClose|, |low-prevClose|)` (evicting
oldest past `period`) and recompute the simple average. -/
def ATR.update (a : ATR) (d : OHLCV) : ATR :=
  match a.values.getLast? with
  | none => { a with values := [d.close] }
  | some prev =>
    let trueRange := max (d.high - d.low) (max |d.high - prev| |d.low - prev|)
    let trs := a.trueRanges ++ [trueRange]
    let trs2 := if a.period < trs.length then trs.tail else trs
    { a with values := a.values ++ [d.close],
             trueRanges := trs2,
             currentATR := trs2.sum / trs2.length }

/-- `ATR::getValue`. -/
def ATR.getValue (a : ATR) : ℚ := a.currentATR

/-! ## Order book data (`src/indicators/MarketData.h`) -/

/-- `OrderBookLevel`. -/
structure OrderBookLevel where
  price : ℚ
  quantity : ℚ
  deriving DecidableEq

/-- `OrderBook`: resting bid and ask levels plus a timestamp. -/
structure OrderBook where
  bids : List OrderBookLevel
  asks : List OrderBookLevel
  timestamp : ℚ
  deriving DecidableEq

/-! ## IndicatorManager (`src/indicators/IndicatorManager.cpp`) -/

/-- State of `IndicatorManager`: one instance of each indicator, the SMA/EMA
collections (the values of `smas_` / `emas_`, in iteration order) and the
stored order-book snapshot. -/
structure IndicatorManager where
  rsi : RSI
  macd : MACD
  bb : BollingerBands
  atr : ATR
  smas : List MovingAverage
  emas : List MovingAverage
  currentOrderBook : OrderBook
  deriving DecidableEq

/-- `IndicatorManager::initializeIndicators`: RSI(14), MACD(12,26,9),
BollingerBands(20, 2.0), ATR(14), SMAs {20,50,200}, EMAs {12,26}. -/
def IndicatorManager.init : IndicatorManager :=
  { rsi := RSI.init 14,
    macd := MACD.init 12 26 9,
    bb := BollingerBands.init 20 2,
    atr := ATR.init 14,
    smas := [MovingAverage.init 20, MovingAverage.init 50,
             MovingAverage.init 200],
    emas := [MovingAverage.init 12, MovingAverage.init 26],
    currentOrderBook := { bids := [], asks := [], timestamp := 0 } }

/-- `IndicatorManager::update`: forward the tick to every indicator. -/
def IndicatorManager.update (m : IndicatorManager) (d : OHLCV) :
    IndicatorManager :=
  { m with rsi := m.rsi.update d,
           macd := m.macd.update d,
           bb := m.bb.update d,
           atr := m.atr.update d,
           smas := m.smas.map (fun s => s.update d),
           emas := m.emas.map (fun e => emaUpdate e d) }

/-- `IndicatorManager::updateOrderBook`: last write wins. -/
def IndicatorManager.updateOrderBook (m : IndicatorManager) (ob : OrderBook) :
    IndicatorManager :=
  { m with currentOrderBook := ob }

/-- `IndicatorManager::getBidAskSpread`: 0 if either side is empty, else
best ask price minus best bid price. -/
def IndicatorManager.getBidAskSpread (m : IndicatorManager) : ℚ :=
  match m.currentOrderBook.bids, m.currentOrderBook.asks with
  | [], _ => 0
  | _, [] => 0
  | b :: _, a :: _ => a.price - b.price

/-- `IndicatorManager::getOrderImbalance`: 0 if either side is empty, else
`(sum bid qty - sum ask qty)/(sum bid qty + sum ask qty)`. -/
def IndicatorManager.getOrderImbalance (m : IndicatorManager) : ℚ :=
  if m.currentOrderBook.bids = [] ∨ m.currentOrderBook.asks = [] then 0
  else
    let bidVolume := (m.currentOrderBook.bids.map (fun l => l.quantity)).sum
    let askVolume := (m.currentOrderBook.asks.map (fun l => l.quantity)).sum
    (bidVolume - askVolume) / (bidVolume + askVolume)

/-- `IndicatorManager::getSlippageEstimate`: 0 if either side is empty, else
`spread * (1 + |imbalance|)` (the computed mid price is unused in the
source). -/
def IndicatorManager.getSlippageEstimate (m : IndicatorManager) : ℚ :=
  if m.currentOrderBook.bids = [] ∨ m.currentOrderBook.asks = [] then 0
  else m.getBidAskSpread * (1 + |m.getOrderImbalance|)

/-- `IndicatorManager::getFeatureVector`: the 8 scalar indicator values, then
the SMA values, then the EMA values, then the three order-book metrics. -/
noncomputable def IndicatorManager.getFeatureVector
    (m : IndicatorManager) : List ℝ :=
  [(m.rsi.getValue : ℝ), (m.macd.getValue : ℝ), (m.macd.getSignal : ℝ),
   (m.macd.getHistogram : ℝ), m.bb.getUpperBand, (m.bb.getMiddleBand : ℝ),
   m.bb.getLowerBand, (m.atr.getValue : ℝ)]
  ++ m.smas.map (fun s => (s.getValue : ℝ))
  ++ m.emas.map (fun e => (e.getValue : ℝ))
  ++ [(m.getBidAskSpread : ℝ), (m.getOrderImbalance : ℝ),
      (m.getSlippageEstimate : ℝ)]

/-! ## SentimentAnalyzer (`src/sentiment/SentimentAnalyzer.cpp`) -/

/-- `SentimentData`. -/
structure SentimentData where
  score : ℚ
  confidence : ℚ
  source : String
  timestamp : ℚ
  text : String
  deriving DecidableEq, Inhabited

/-- State of `SentimentAnalyzer`: one observation list per source. -/
structure SentimentAnalyzer where
  twitterData : List SentimentData
  redditData : List SentimentData
  newsData : List SentimentData
  deriving DecidableEq

/-- `SentimentAnalyzer::SentimentAnalyzer()`. -/
def SentimentAnalyzer.init : SentimentAnalyzer :=
  { twitterData := [], redditData := [], newsData := [] }

/-- The weight `confidence * exp(-age_seconds/3600)` given to one observation
inside `SentimentAnalyzer::calculateWeightedSentiment`. -/
noncomputable def sentimentWeight (now : ℚ) (item : SentimentData) : ℝ :=
  (item.confidence : ℝ) * Real.exp (-((now - item.timestamp : ℚ) : ℝ) / 3600)

/-- `SentimentAnalyzer::calculateWeightedSentiment`: 0 on no data, else the
weighted mean of scores, or 0 when the total weight is not positive. -/
noncomputable def calculateWeightedSentiment
    (now : ℚ) (data : List SentimentData) : ℝ :=
  if data = [] then 0
  else
    let totalWeight := (data.map (sentimentWeight now)).sum
    let weightedSum :=
      (data.map (fun it => (it.score : ℝ) * sentimentWeight now it)).sum
    if 0 < totalWeight then weightedSum / totalWeight else 0

/-- `SentimentAnalyzer::getAggregateSentiment`: fixed weights 0.3 Twitter,
0.3 Reddit, 0.4 News. -/
noncomputable def SentimentAnalyzer.getAggregateSentiment
    (a : SentimentAnalyzer) (now : ℚ) : ℝ :=
  calculateWeightedSentiment now a.twitterData * (3 / 10)
  + calculateWeightedSentiment now a.redditData * (3 / 10)
  + calculateWeightedSentiment now a.newsData * (2 / 5)

/-- Insert an observation into a list kept sorted by timestamp descending;
together with `sortByTimestampDesc` this models the
`std::sort(..., a.timestamp > b.timestamp)` call in
`SentimentAnalyzer::getRecentSentiments` (ties, which `std::sort` orders
arbitrarily, are broken in favour of the inserted element). -/
def insertByTimestampDesc (x : SentimentData) :
    List SentimentData → List SentimentData
  | [] => [x]
  | y :: ys =>
    if y.timestamp ≤ x.timestamp then x :: y :: ys
    else y :: insertByTimestampDesc x ys

/-- Sort a list of observations by timestamp, newest first. -/
def sortByTimestampDesc (l : List SentimentData) : List SentimentData :=
  l.foldr insertByTimestampDesc []

/-- `SentimentAnalyzer::getRecentSentiments`: merge the three source lists,
sort newest first, and truncate to the first `count` entries. -/
def SentimentAnalyzer.getRecentSentiments
    (a : SentimentAnalyzer) (count : Nat) : List SentimentData :=
  let allData := a.twitterData ++ a.redditData ++ a.newsData
  let sorted := sortByTimestampDesc allData
  if count < sorted.length then sorted.take count else sorted

/-- The momentum entry of `SentimentAnalyzer::getSentimentFeatures`:
`recents.back().score - recents.front().score` over the 20 most recent
observations when at least 2 exist, else 0. -/
def sentimentMomentum (a : SentimentAnalyzer) : ℚ :=
  let recents := a.getRecentSentiments 20
  if 2 ≤ recents.length then
    (recents.getLastD default).score - (recents.headD default).score
  else 0

/-- `SentimentAnalyzer::getSentimentFeatures`: the three per-source
sentiments, the aggregate, and the momentum — five entries. -/
noncomputable def SentimentAnalyzer.getSentimentFeatures
    (a : SentimentAnalyzer) (now : ℚ) : List ℝ :=
  [calculateWeightedSentiment now a.twitterData,
   calculateWeightedSentiment now a.redditData,
   calculateWeightedSentiment now a.newsData,
   a.getAggregateSentiment now,
   (sentimentMomentum a : ℝ)]

/-- `MarketDataPipeline::updateFeatures`: the indicator feature vector with
the sentiment features appended. -/
noncomputable def assembledFeatures
    (m : IndicatorManager) (a : SentimentAnalyzer) (now : ℚ) : List ℝ :=
  m.getFeatureVector ++ a.getSentimentFeatures now

/-! ## Data quality tracking (`src/data/DataQualityMetrics.cpp`) -/

/-- Push at the back of a bounded `std::deque`, evicting the front entry once
the size exceeds `bound` (the `push_back` + conditional `pop_front` pattern
used for latency and sample histories). -/
def pushBounded {α : Type} (bound : Nat) (l : List α) (x : α) : List α :=
  let l2 := l ++ [x]
  if bound < l2.length then l2.tail else l2

/-- `DataQualityMetrics`: one computed quality sample.  `latencyStdDev` is
produced by `std::sqrt` and is therefore real-valued; every other field is
rational (counts are naturals). -/
structure DataQualityMetrics where
  averageLatency : ℚ
  maxLatency : ℚ
  latencyStdDev : ℝ
  dataCompleteness : ℚ
  missingDataRate : ℚ
  priceAccuracy : ℚ
  volumeAccuracy : ℚ
  orderBookAccuracy : ℚ
  sourceReliability : ℚ
  totalDataPoints : Nat
  validDataPoints : Nat
  rejectedDataPoints : Nat
  timestamp : ℚ

/-- `DataQualityMetrics{}`: all fields zero-initialised. -/
noncomputable instance : Inhabited DataQualityMetrics :=
  ⟨{ averageLatency := 0, maxLatency := 0, latencyStdDev := 0,
     dataCompleteness := 0, missingDataRate := 0, priceAccuracy := 0,
     volumeAccuracy := 0, orderBookAccuracy := 0, sourceReliability := 0,
     totalDataPoints := 0, validDataPoints := 0, rejectedDataPoints := 0,
     timestamp := 0 }⟩

/-- `DataQualityTracker::SourceMetrics`: per-source rolling state. -/
structure SourceMetrics where
  history : List DataQualityMetrics
  latencyHistory : List ℚ
  totalDataPoints : Nat
  validDataPoints : Nat
  rejectedDataPoints : Nat
  accuratePricePoints : Nat
  accurateVolumePoints : Nat
  accurateOrderBookPoints : Nat

/-- A fresh (value-initialised) `SourceMetrics`. -/
def SourceMetrics.initial : SourceMetrics :=
  { history := [], latencyHistory := [], totalDataPoints := 0,
    validDataPoints := 0, rejectedDataPoints := 0, accuratePricePoints := 0,
    accurateVolumePoints := 0, accurateOrderBookPoints := 0 }

/-- `DataQualityTracker::calculateMetrics`: no-op when `totalDataPoints` is
zero, else compute a fresh sample (latency statistics over the bounded
latency history, completeness/accuracy as percentages of
`totalDataPoints`, composite reliability) and append it to the bounded
sample history. -/
noncomputable def SourceMetrics.calculateMetrics
    (historySize : Nat) (m : SourceMetrics) (now : ℚ) : SourceMetrics :=
  if m.totalDataPoints = 0 then m
  else
    let avgLat : ℚ :=
      if m.latencyHistory = [] then 0
      else m.latencyHistory.sum / m.latencyHistory.length
    let maxLat : ℚ :=
      if m.latencyHistory = [] then 0 else (m.latencyHistory.max?).getD 0
    let stddev : ℝ :=
      if m.latencyHistory = [] then 0
      else Real.sqrt
        (((m.latencyHistory.map (fun x => (x - avgLat) ^ 2)).sum /
            m.latencyHistory.length : ℚ) : ℝ)
    let completeness : ℚ := (m.validDataPoints : ℚ) / m.totalDataPoints * 100
    let missing : ℚ := (m.rejectedDataPoints : ℚ) / m.totalDataPoints * 100
    let priceAcc : ℚ := (m.accuratePricePoints : ℚ) / m.totalDataPoints * 100
    let volAcc : ℚ := (m.accurateVolumePoints : ℚ) / m.totalDataPoints * 100
    let obAcc : ℚ :=
      (m.accurateOrderBookPoints : ℚ) / m.totalDataPoints * 100
    let s : DataQualityMetrics :=
      { averageLatency := avgLat, maxLatency := maxLat,
        latencyStdDev := stddev,
        dataCompleteness := completeness, missingDataRate := missing,
        priceAccuracy := priceAcc, volumeAccuracy := volAcc,
        orderBookAccuracy := obAcc,
        sourceReliability :=
          (completeness * (3 / 10) + priceAcc * (3 / 10) +
           volAcc * (1 / 5) + obAcc * (1 / 5)) / 100,
        totalDataPoints := m.totalDataPoints,
        validDataPoints := m.validDataPoints,
        rejectedDataPoints := m.rejectedDataPoints,
        timestamp := now }
    { m with history := pushBounded historySize m.history s }

/-- `DataQualityTracker::recordLatency` restricted to one source's state. -/
noncomputable def SourceMetrics.recordLatency (historySize : Nat)
    (m : SourceMetrics) (latency now : ℚ) : SourceMetrics :=
  SourceMetrics.calculateMetrics historySize
    { m with latencyHistory := pushBounded historySize m.latencyHistory latency }
    now

/-- `DataQualityTracker::recordDataPoint` restricted to one source's state. -/
noncomputable def SourceMetrics.recordDataPoint (historySize : Nat)
    (m : SourceMetrics) (isValid : Bool) (now : ℚ) : SourceMetrics :=
  SourceMetrics.calculateMetrics historySize
    { m with totalDataPoints := m.totalDataPoints + 1,
             validDataPoints :=
               m.validDataPoints + (if isValid then 1 else 0),
             rejectedDataPoints :=
               m.rejectedDataPoints + (if isValid then 0 else 1) }
    now

/-- `DataQualityTracker`: the configured history bound plus the per-source
map (`sourceMetrics_`), modelled as a total function defaulting to a fresh
`SourceMetrics` exactly as `operator[]` default-constructs missing keys. -/
structure DataQualityTracker where
  historySize : Nat
  sourceMetrics : String → SourceMetrics

/-- `DataQualityTracker::DataQualityTracker(historySize)`. -/
def DataQualityTracker.create (historySize : Nat) : DataQualityTracker :=
  { historySize := historySize, sourceMetrics := fun _ => SourceMetrics.initial }

/-- `DataQualityTracker::recordLatency`. -/
noncomputable def DataQualityTracker.recordLatency (t : DataQualityTracker)
    (source : String) (latency now : ℚ) : DataQualityTracker :=
  { t with sourceMetrics := fun s =>
      if s = source then
        (SourceMetrics.recordLatency t.historySize (t.sourceMetrics source)
          latency now)
      else t.sourceMetrics s }

/-- `DataQualityTracker::recordDataPoint`. -/
noncomputable def DataQualityTracker.recordDataPoint (t : DataQualityTracker)
    (source : String) (isValid : Bool) (now : ℚ) : DataQualityTracker :=
  { t with sourceMetrics := fun s =>
      if s = source then
        (SourceMetrics.recordDataPoint t.historySize (t.sourceMetrics source)
          isValid now)
      else t.sourceMetrics s }

/-- `DataQualityTracker::getLatestMetrics`: the most recent sample of the
source's history, or a zero sample when there is none. -/
noncomputable def DataQualityTracker.getLatestMetrics (t : DataQualityTracker)
    (source : String) : DataQualityMetrics :=
  (t.sourceMetrics source).history.getLastD default

/-! ## Ingestion pipeline (`src/data/MarketDataPipeline.cpp`) -/

/-- `MarketDataUpdate` as used by `MarketDataPipeline.cpp` (an OHLCV payload
`data` plus timestamp, source and confidence). -/
structure MarketDataUpdate where
  data : OHLCV
  timestamp : ℚ
  source : String
  confidence : ℚ

/-- `OrderBookUpdate` as used by `MarketDataPipeline.cpp` (an order-book
payload `data` plus timestamp, source and confidence). -/
structure OrderBookUpdate where
  data : OrderBook
  timestamp : ℚ
  source : String
  confidence : ℚ

/-- `MarketDataPipeline::checkDataFreshness`: the age `now - timestamp` in
seconds must be at most 60.  There is no lower bound on the age. -/
def checkDataFreshness (now ts : ℚ) : Bool := now - ts ≤ 60

/-- `MarketDataPipeline::checkDataConsistency` on an OHLCV bar. -/
def checkDataConsistency (d : OHLCV) : Bool :=
  if d.open_ ≤ 0 ∨ d.high ≤ 0 ∨ d.low ≤ 0 ∨ d.close ≤ 0 then false
  else if d.high < d.low ∨ d.high < d.open_ ∨ d.high < d.close ∨
      d.low > d.open_ ∨ d.low > d.close then false
  else if d.volume < 0 then false
  else true

/-- `MarketDataPipeline::checkOrderBookConsistency`: every level on both
sides must have positive price and quantity, and when both sides are
non-empty the best bid must be strictly below the best ask.  The source
performs no ordering or non-emptiness check on either side. -/
def checkOrderBookConsistency (b : OrderBook) : Bool :=
  if ¬ (∀ l ∈ b.bids, 0 < l.price ∧ 0 < l.quantity) then false
  else if ¬ (∀ l ∈ b.asks, 0 < l.price ∧ 0 < l.quantity) then false
  else
    match b.bids, b.asks with
    | bb :: _, aa :: _ => decide (bb.price < aa.price)
    | _, _ => true

/-- `MarketDataPipeline::validateMarketData`: freshness, OHLCV consistency,
confidence within `[0,1]`. -/
def validateMarketData (now : ℚ) (d : MarketDataUpdate) : Bool :=
  checkDataFreshness now d.timestamp && checkDataConsistency d.data &&
    !(decide (d.confidence < 0 ∨ d.confidence > 1))

/-- `MarketDataPipeline::validateOrderBook`: freshness, order-book
consistency, confidence within `[0,1]`. -/
def validateOrderBook (now : ℚ) (u : OrderBookUpdate) : Bool :=
  checkDataFreshness now u.timestamp && checkOrderBookConsistency u.data &&
    !(decide (u.confidence < 0 ∨ u.confidence > 1))

/-- `MarketDataPipeline::pushToQueue`: if the queue already holds at least
`maxQueueSize` items, pop the oldest (front) item, then push the new one at
the back. -/
def pushToQueue {α : Type} (maxQueueSize : Nat) (q : List α) (x : α) :
    List α :=
  let q2 := if maxQueueSize ≤ q.length then q.tail else q
  q2 ++ [x]

/-- State of `MarketDataPipeline` relevant to the push paths: the configured
queue bound, the two bounded queues and the quality tracker. -/
structure MarketDataPipeline where
  maxQueueSize : Nat
  marketDataQueue : List MarketDataUpdate
  orderBookQueue : List OrderBookUpdate
  qualityTracker : DataQualityTracker

/-- `MarketDataPipeline::MarketDataPipeline()`: queue bound 1000, fresh
tracker (history bound 1000). -/
def MarketDataPipeline.create : MarketDataPipeline :=
  { maxQueueSize := 1000, marketDataQueue := [], orderBookQueue := [],
    qualityTracker := DataQualityTracker.create 1000 }

/-- `MarketDataPipeline::pushMarketData`: on validation failure record a
rejected data point for the source and throw (result `false`); on success
record the latency `now - timestamp` and a valid data point, then enqueue.
The latency is recorded in model time units rather than cast to whole
milliseconds. -/
noncomputable def MarketDataPipeline.pushMarketData (p : MarketDataPipeline)
    (now : ℚ) (d : MarketDataUpdate) : Bool × MarketDataPipeline :=
  if validateMarketData now d then
    let t1 := p.qualityTracker.recordLatency d.source (now - d.timestamp) now
    let t2 := t1.recordDataPoint d.source true now
    (true, { p with qualityTracker := t2,
                    marketDataQueue :=
                      pushToQueue p.maxQueueSize p.marketDataQueue d })
  else
    (false, { p with qualityTracker :=
                p.qualityTracker.recordDataPoint d.source false now })

/-- `MarketDataPipeline::pushOrderBook`: same shape as `pushMarketData` over
the order-book queue. -/
noncomputable def MarketDataPipeline.pushOrderBook (p : MarketDataPipeline)
    (now : ℚ) (u : OrderBookUpdate) : Bool × MarketDataPipeline :=
  if validateOrderBook now u then
    let t1 := p.qualityTracker.recordLatency u.source (now - u.timestamp) now
    let t2 := t1.recordDataPoint u.source true now
    (true, { p with qualityTracker := t2,
                    orderBookQueue :=
                      pushToQueue p.maxQueueSize p.orderBookQueue u })
  else
    (false, { p with qualityTracker :=
                p.qualityTracker.recordDataPoint u.source false now })

/-! ### Lemmas about RSI runs -/

@[simp] lemma tickOf_close (c : ℚ) : (tickOf c).close = c := rfl

lemma mem_of_mem_rsiPush {period : Nat} {l : List ℚ} {x y : ℚ}
    (h : y ∈ rsiPush period l x) : y ∈ l ++ [x] := by
  unfold rsiPush at h
  by_cases hc : period < (l ++ [x]).length
  · rw [if_pos hc] at h
    exact List.mem_of_mem_tail h
  · rwa [if_neg hc] at h

lemma rsiPush_ne_nil {period : Nat} (hp : 1 ≤ period) (l : List ℚ) (x : ℚ) :
    rsiPush period l x ≠ [] := by
  unfold rsiPush
  by_cases hc : period < (l ++ [x]).length
  · rw [if_pos hc]
    have hlen : ((l ++ [x]).tail).length = l.length := by simp
    intro hnil
    rw [hnil] at hlen
    simp at hlen
    simp [← hlen] at hc
    omega
  · rw [if_neg hc]
    simp

lemma RSI.update_values_getLast (r : RSI) (c : ℚ) :
    ((r.update (tickOf c)).values).getLast? = some c := by
  unfold RSI.update
  cases h : r.values.getLast? with
  | none => simp
  | some prev => simp

lemma RSI.update_period (r : RSI) (c : ℚ) :
    (r.update (tickOf c)).period = r.period := by
  unfold RSI.update
  cases h : r.values.getLast? <;> simp

lemma RSI.update_of_gain (r : RSI) (c prev : ℚ)
    (hl : r.values.getLast? = some prev) (hc : prev ≤ c) :
    (r.update (tickOf c)).losses = rsiPush r.period r.losses 0 ∧
    (r.update (tickOf c)).avgLoss =
      (rsiPush r.period r.losses 0).sum / (rsiPush r.period r.losses 0).length := by
  have hch : (0 : ℚ) ≤ c - prev := by linarith
  unfold RSI.update
  rw [hl]
  simp [hch]

lemma RSI.update_of_loss (r : RSI) (c prev : ℚ)
    (hl : r.values.getLast? = some prev) (hc : c < prev) :
    (r.update (tickOf c)).gains = rsiPush r.period r.gains 0 ∧
    (r.update (tickOf c)).losses = rsiPush r.period r.losses (prev - c) ∧
    (r.update (tickOf c)).avgGain =
      (rsiPush r.period r.gains 0).sum / (rsiPush r.period r.gains 0).length ∧
    (r.update (tickOf c)).avgLoss =
      (rsiPush r.period r.losses (prev - c)).sum /
        (rsiPush r.period r.losses (prev - c)).length := by
  have hch : ¬ ((0 : ℚ) ≤ c - prev) := by simp; linarith
  have hneg : -(c - prev) = prev - c := by ring
  unfold RSI.update
  rw [hl]
  simp [hch, hneg]

/-- Through a run over strictly increasing closes every stored loss is `0`,
so `avgLoss_` stays `0`. -/
lemma rsiFold_increasing :
    ∀ (cs : List ℚ) (r : RSI) (x : ℚ),
      r.values.getLast? = some x →
      (∀ y ∈ r.losses, y = 0) → r.avgLoss = 0 →
      List.Chain (· < ·) x cs →
      (cs.foldl (fun s c => s.update (tickOf c)) r).avgLoss = 0 := by
  intro cs
  induction cs with
  | nil => intro r x _ _ h0 _; simpa using h0
  | cons c cs ih =>
    intro r x hlast hzero h0 hchain
    rcases hchain with _ | ⟨hxc, hchain⟩
    have hstep := RSI.update_of_gain r c x hlast (le_of_lt hxc)
    set r' := r.update (tickOf c) with hr'
    have hzero' : ∀ y ∈ r'.losses, y = 0 := by
      intro y hy
      rw [hstep.1] at hy
      rcases List.mem_append.mp (mem_of_mem_rsiPush hy) with h | h
      · exact hzero y h
      · simpa using h
    have hsum' : r'.losses.sum = 0 :=
      List.sum_eq_zero fun y hy => hzero' y hy
    have h0' : r'.avgLoss = 0 := by
      rw [hstep.1] at hsum'
      rw [hstep.2, hsum', zero_div]
    have hlast' : r'.values.getLast? = some c := RSI.update_values_getLast r c
    simpa using ih r' c hlast' hzero' h0' hchain

/-- Through a run over strictly decreasing closes every stored gain is `0` and
every stored loss is positive, so `avgGain_ = 0` and `avgLoss_ > 0`. -/
lemma rsiFold_decreasing (period : Nat) (hp : 1 ≤ period) :
    ∀ (cs : List ℚ) (r : RSI) (x : ℚ),
      r.period = period →
      r.values.getLast? = some x →
      (∀ y ∈ r.gains, y = 0) →
      (∀ y ∈ r.losses, 0 < y) → r.losses ≠ [] →
      r.avgGain = 0 → 0 < r.avgLoss →
      List.Chain (· > ·) x cs →
      (cs.foldl (fun s c => s.update (tickOf c)) r).avgGain = 0 ∧
        0 < (cs.foldl (fun s c => s.update (tickOf c)) r).avgLoss := by
  intro cs
  induction cs with
  | nil => intro r x _ _ _ _ _ hg hl _; exact ⟨hg, hl⟩
  | cons c cs ih =>
    intro r x hper hlast hg0 hlpos hlne hg hl hchain
    rcases hchain with _ | ⟨hxc, hchain⟩
    have hstep := RSI.update_of_loss r c x hlast hxc
    set r' := r.update (tickOf c) with hr'
    have hg0' : ∀ y ∈ r'.gains, y = 0 := by
      intro y hy
      rw [hstep.1] at hy
      rcases List.mem_append.mp (mem_of_mem_rsiPush hy) with h | h
      · exact hg0 y h
      · simpa using h
    have hlpos' : ∀ y ∈ r'.losses, 0 < y := by
      intro y hy
      rw [hstep.2.1] at hy
      rcases List.mem_append.mp (mem_of_mem_rsiPush hy) with h | h
      · exact hlpos y h
      · have : y = x - c := by simpa using h
        rw [this]; linarith
    have hlne' : r'.losses ≠ [] := by
      rw [hstep.2.1, hper]
      exact rsiPush_ne_nil hp _ _
    have hg' : r'.avgGain = 0 := by
      have hz : (rsiPush r.period r.gains 0).sum = 0 := by
        apply List.sum_eq_zero
        intro y hy
        rcases List.mem_append.mp (mem_of_mem_rsiPush hy) with h | h
        · exact hg0 y h
        · simpa using h
      rw [hstep.2.2.1, hz, zero_div]
    have hl' : 0 < r'.avgLoss := by
      have hsum : 0 < r'.losses.sum := List.sum_pos _ hlpos' hlne'
      have hlen : 0 < (r'.losses.length : ℚ) := by
        have : 0 < r'.losses.length := List.length_pos.mpr hlne'
        exact_mod_cast this
      have : r'.avgLoss = r'.losses.sum / r'.losses.length := by
        rw [hstep.2.2.2, hstep.2.1]
      rw [this]
      exact div_pos hsum hlen
    have hper' : r'.period = period := by
      rw [hr', RSI.update_period, hper]
    have hlast' : r'.values.getLast? = some c := RSI.update_values_getLast r c
    simpa using ih r' c hper' hlast' hg0' hlpos' hlne' hg' hl' hchain

/-! ## Claim C4 — EMA after one and two updates -/

/-- The claim of C4 fails on the code: `EMA` inherits
`MovingAverage::getValue`, which averages the whole stored window, so for
`EMA(2)` with closes `1` then `4` the code yields `(1 + 3)/2 = 2`, while the
claimed value `alpha*c2 + (1-alpha)*c1` is `3`. -/
theorem C4_counterexample :
    (emaUpdate (emaUpdate (MovingAverage.init 2) (tickOf 1)) (tickOf 4)).getValue = 2 ∧
    emaAlpha 2 * 4 + (1 - emaAlpha 2) * 1 = 3 := by
  constructor
  · norm_num [emaUpdate, MovingAverage.init, MovingAverage.getValue, emaAlpha, tickOf]
    exact List.cons_ne_nil _ _
  · norm_num [emaAlpha]

/-- C4 (amended): for every `EMA(period)` with `period ≥ 1` and
`alpha = 2/(period+1)`, the first update with close `c1` makes the value `c1`;
after a second update with close `c2` the value is the running value
`alpha*c2 + (1-alpha)*c1` when `period = 1` (the window holds one entry), and
the window average `(c1 + (alpha*c2 + (1-alpha)*c1))/2` when `period ≥ 2`,
because `EMA::getValue` is the inherited window mean. -/
theorem C4_ema_first_two_updates (period : Nat) (hp : 1 ≤ period) (c1 c2 : ℚ) :
    (emaUpdate (MovingAverage.init period) (tickOf c1)).getValue = c1 ∧
    (emaUpdate (emaUpdate (MovingAverage.init period) (tickOf c1))
        (tickOf c2)).getValue =
      (if period = 1 then emaAlpha period * c2 + (1 - emaAlpha period) * c1
       else (c1 + (emaAlpha period * c2 + (1 - emaAlpha period) * c1)) / 2) := by
  constructor
  · simp [emaUpdate, MovingAverage.init, MovingAverage.getValue, tickOf]
  · by_cases h1 : period = 1
    · subst h1
      simp [emaUpdate, MovingAverage.init, MovingAverage.getValue, tickOf]
    · have h2 : ¬ (period < 2) := by omega
      simp [emaUpdate, MovingAverage.init, MovingAverage.getValue, tickOf, h2, h1]

/-- Witness for C4's amended theorem at `period = 2`, `c1 = 1`, `c2 = 4`. -/
theorem C4_ema_first_two_updates_witness :
    (1 : ℕ) ≤ 2 ∧
    ((emaUpdate (MovingAverage.init 2) (tickOf 1)).getValue = 1 ∧
     (emaUpdate (emaUpdate (MovingAverage.init 2) (tickOf 1)) (tickOf 4)).getValue =
       (if (2 : ℕ) = 1 then emaAlpha 2 * 4 + (1 - emaAlpha 2) * 1
        else (1 + (emaAlpha 2 * 4 + (1 - emaAlpha 2) * 1)) / 2)) :=
  ⟨by norm_num, C4_ema_first_two_updates 2 (by norm_num) 1 4⟩

/-! ## Claim C5 — RSI value -/

/-- The claim of C5 fails on the code: `RSI::getValue` returns 100 when the
average loss (not the average gain) is zero.  After closes `2` then `1` the
state has `avgGain = 0` and `avgLoss = 1`, and the code returns `0`,
not the claimed `100`. -/
theorem C5_counterexample :
    (rsiRun 14 [2, 1]).avgGain = 0 ∧ (rsiRun 14 [2, 1]).getValue = 0 ∧
    (rsiRun 14 [2, 1]).getValue ≠ 100 := by
  refine ⟨?_, ?_, ?_⟩
  · norm_num [rsiRun, RSI.init, RSI.update, rsiPush, tickOf]
  · norm_num [rsiRun, RSI.init, RSI.update, rsiPush, tickOf, RSI.getValue]
  · norm_num [rsiRun, RSI.init, RSI.update, rsiPush, tickOf, RSI.getValue]

/-- C5 (amended): after any update history the RSI value is 100 when
`avgLoss = 0` and `100 - 100/(1 + avgGain/avgLoss)` otherwise; consequently a
strictly increasing close sequence yields exactly 100 and a strictly
decreasing one (with at least one change) yields exactly 0. -/
theorem C5_rsi_value_amended :
    (∀ r : RSI, r.avgLoss = 0 → r.getValue = 100) ∧
    (∀ r : RSI, r.avgLoss ≠ 0 →
        r.getValue = 100 - 100 / (1 + r.avgGain / r.avgLoss)) ∧
    (∀ (period : Nat) (cs : List ℚ), 1 ≤ period → cs.Chain' (· < ·) →
        (rsiRun period cs).getValue = 100) ∧
    (∀ (period : Nat) (cs : List ℚ), 1 ≤ period → cs.Chain' (· > ·) →
        2 ≤ cs.length → (rsiRun period cs).getValue = 0) := by
  refine ⟨?_, ?_, ?_, ?_⟩
  · intro r h; simp [RSI.getValue, h]
  · intro r h; simp [RSI.getValue, h]
  · intro period cs hp hchain
    cases cs with
    | nil => simp [rsiRun, RSI.init, RSI.getValue]
    | cons c cs' =>
      have hchain' : List.Chain (· < ·) c cs' := hchain
      have hseed : (RSI.init period).update (tickOf c) =
          { period := period, values := [c], gains := [], losses := [],
            avgGain := 0, avgLoss := 0 } := rfl
      have h0 : (rsiRun period (c :: cs')).avgLoss = 0 := by
        unfold rsiRun
        rw [List.foldl_cons, hseed]
        exact rsiFold_increasing cs' _ c rfl (by simp) rfl hchain'
      simp [RSI.getValue, h0]
  · intro period cs hp hchain hlen
    match cs, hlen with
    | c1 :: c2 :: rest, _ =>
      have hchain0 : List.Chain (· > ·) c1 (c2 :: rest) := hchain
      rcases hchain0 with _ | ⟨h12, hchain2⟩
      have hpush : ∀ x : ℚ, rsiPush period [] x = [x] := by
        intro x
        unfold rsiPush
        have hno : ¬ (period = 0) := by omega
        simp [hno]
      have hr2 : ((RSI.init period).update (tickOf c1)).update (tickOf c2) =
          { period := period, values := [c1, c2], gains := [0],
            losses := [c1 - c2], avgGain := 0, avgLoss := c1 - c2 } := by
        have hs : (RSI.init period).update (tickOf c1) =
            { period := period, values := [c1], gains := [], losses := [],
              avgGain := 0, avgLoss := 0 } := rfl
        rw [hs]
        unfold RSI.update
        have hch : ¬ ((0 : ℚ) ≤ c2 - c1) := by simp; linarith
        simp [tickOf, hch, hpush]
      have hmain := rsiFold_decreasing period hp rest
        (((RSI.init period).update (tickOf c1)).update (tickOf c2)) c2
        (by rw [hr2]) (by rw [hr2]; rfl)
        (by rw [hr2]; intro y hy; simpa using hy)
        (by rw [hr2]; intro y hy; have : y = c1 - c2 := by simpa using hy
            rw [this]; linarith)
        (by rw [hr2]; simp)
        (by rw [hr2]) (by rw [hr2]; simp; linarith) hchain2
      have hne : (rsiRun period (c1 :: c2 :: rest)).avgLoss ≠ 0 := by
        unfold rsiRun
        simp only [List.foldl_cons]
        exact ne_of_gt hmain.2
      have hg : (rsiRun period (c1 :: c2 :: rest)).avgGain = 0 := by
        unfold rsiRun
        simp only [List.foldl_cons]
        exact hmain.1
      simp [RSI.getValue, hne, hg]

/-- Witness for C5's amended theorem: `RSI(14)` over the strictly increasing
closes `[1, 2, 3]` yields 100, and over `[3, 2, 1]` yields 0. -/
theorem C5_rsi_value_amended_witness :
    (1 : ℕ) ≤ 14 ∧ List.Chain' (· < ·) ([1, 2, 3] : List ℚ) ∧
    (rsiRun 14 [1, 2, 3]).getValue = 100 ∧
    List.Chain' (· > ·) ([3, 2, 1] : List ℚ) ∧ 2 ≤ ([3, 2, 1] : List ℚ).length ∧
    (rsiRun 14 [3, 2, 1]).getValue = 0 :=
  ⟨by norm_num, by norm_num [List.chain'_cons, List.chain'_singleton],
   C5_rsi_value_amended.2.2.1 14 [1, 2, 3] (by norm_num)
     (by norm_num [List.chain'_cons, List.chain'_singleton]),
   by norm_num [List.chain'_cons, List.chain'_singleton], by norm_num,
   C5_rsi_value_amended.2.2.2 14 [3, 2, 1] (by norm_num)
     (by norm_num [List.chain'_cons, List.chain'_singleton]) (by norm_num)⟩

/-! ## Claim C1 — feature-vector length -/

/-- The claim of C1 fails on the code: `getSentimentFeatures` pushes five
entries (three per-source sentiments, the aggregate, and the momentum), so
the assembled feature vector of the default configuration has length
`8 + 3 + 2 + 3 + 5 = 21`, not 20.  Shown here on the freshly constructed
pipeline state. -/
theorem C1_counterexample :
    (assembledFeatures IndicatorManager.init SentimentAnalyzer.init 0).length ≠ 20 := by
  simp [assembledFeatures, IndicatorManager.getFeatureVector,
        SentimentAnalyzer.getSentimentFeatures, IndicatorManager.init,
        SentimentAnalyzer.init]

/-- C1 (amended): for the default configuration (3 SMA periods, 2 EMA
periods) the assembled feature vector — indicator outputs, order-book
metrics, then sentiment features — has length `8 + 3 + 2 + 3 + 5 = 21` for
every state of the indicators and sentiment stores, the sentiment block
contributing five scalars. -/
theorem C1_feature_vector_length (m : IndicatorManager) (a : SentimentAnalyzer)
    (now : ℚ) (hs : m.smas.length = 3) (he : m.emas.length = 2) :
    (assembledFeatures m a now).length = 21 := by
  simp [assembledFeatures, IndicatorManager.getFeatureVector,
        SentimentAnalyzer.getSentimentFeatures, hs, he]

/-- Witness for C1's amended theorem at the default-constructed manager and
an empty sentiment store. -/
theorem C1_feature_vector_length_witness :
    IndicatorManager.init.smas.length = 3 ∧
    IndicatorManager.init.emas.length = 2 ∧
    (assembledFeatures IndicatorManager.init SentimentAnalyzer.init 0).length = 21 :=
  ⟨rfl, rfl,
   C1_feature_vector_length IndicatorManager.init SentimentAnalyzer.init 0 rfl rfl⟩

/-! ## Claim C10 — future-dated data passes the freshness check -/

/-- C10: the freshness check imposes only an upper bound on age, so any
timestamp at or after `now` passes it, and future-dated ticks and order
books that satisfy the remaining validation rules are accepted and
enqueued. -/
theorem C10_future_data_accepted :
    (∀ now ts : ℚ, now ≤ ts → checkDataFreshness now ts = true) ∧
    (∀ (p : MarketDataPipeline) (now : ℚ) (d : MarketDataUpdate),
       now ≤ d.timestamp → checkDataConsistency d.data = true →
       0 ≤ d.confidence → d.confidence ≤ 1 →
       (p.pushMarketData now d).1 = true ∧
       (p.pushMarketData now d).2.marketDataQueue =
         pushToQueue p.maxQueueSize p.marketDataQueue d) ∧
    (∀ (p : MarketDataPipeline) (now : ℚ) (u : OrderBookUpdate),
       now ≤ u.timestamp → checkOrderBookConsistency u.data = true →
       0 ≤ u.confidence → u.confidence ≤ 1 →
       (p.pushOrderBook now u).1 = true ∧
       (p.pushOrderBook now u).2.orderBookQueue =
         pushToQueue p.maxQueueSize p.orderBookQueue u) := by
  have hfresh : ∀ now ts : ℚ, now ≤ ts → checkDataFreshness now ts = true := by
    intro now ts h
    simp [checkDataFreshness]
    linarith
  refine ⟨hfresh, ?_, ?_⟩
  · intro p now d hts hcons h0 h1
    have hv : validateMarketData now d = true := by
      simp [validateMarketData, hcons, hfresh now d.timestamp hts]
      constructor <;> linarith
    constructor
    · simp [MarketDataPipeline.pushMarketData, hv]
    · simp [MarketDataPipeline.pushMarketData, hv]
  · intro p now u hts hcons h0 h1
    have hv : validateOrderBook now u = true := by
      simp [validateOrderBook, hcons, hfresh now u.timestamp hts]
      constructor <;> linarith
    constructor
    · simp [MarketDataPipeline.pushOrderBook, hv]
    · simp [MarketDataPipeline.pushOrderBook, hv]

/-- Witness for C10: a tick and an order book dated 1000000 seconds in the
future of `now = 0` are both accepted and enqueued on the freshly
constructed pipeline. -/
theorem C10_future_data_accepted_witness :
    checkDataFreshness 0 1000000 = true ∧
    (MarketDataPipeline.create.pushMarketData 0
      { data := { open_ := 1, high := 1, low := 1, close := 1, volume := 1,
                  timestamp := 1000000 },
        timestamp := 1000000, source := "Binance", confidence := 1 }).1 = true ∧
    (MarketDataPipeline.create.pushOrderBook 0
      { data := { bids := [{ price := 100, quantity := 1 }],
                  asks := [{ price := 101, quantity := 1 }],
                  timestamp := 1000000 },
        timestamp := 1000000, source := "Binance", confidence := 1 }).1 = true :=
  ⟨C10_future_data_accepted.1 0 1000000 (by norm_num),
   (C10_future_data_accepted.2.1 MarketDataPipeline.create 0
      { data := { open_ := 1, high := 1, low := 1, close := 1, volume := 1,
                  timestamp := 1000000 },
        timestamp := 1000000, source := "Binance", confidence := 1 }
      (by norm_num) (by norm_num [checkDataConsistency])
      (by norm_num) (by norm_num)).1,
   (C10_future_data_accepted.2.2 MarketDataPipeline.create 0
      { data := { bids := [{ price := 100, quantity := 1 }],
                  asks := [{ price := 101, quantity := 1 }],
                  timestamp := 1000000 },
        timestamp := 1000000, source := "Binance", confidence := 1 }
      (by norm_num) (by norm_num [checkOrderBookConsistency])
      (by norm_num) (by norm_num)).1⟩

/-! ## Claim C2 — order-book validation -/

lemma checkOrderBookConsistency_eq (b : OrderBook) :
    checkOrderBookConsistency b =
      (decide (∀ l ∈ b.bids, 0 < l.price ∧ 0 < l.quantity) &&
       decide (∀ l ∈ b.asks, 0 < l.price ∧ 0 < l.quantity) &&
       decide (∀ bb ∈ b.bids.head?, ∀ aa ∈ b.asks.head?,
         bb.price < aa.price)) := by
  unfold checkOrderBookConsistency
  by_cases hb : ∀ l ∈ b.bids, 0 < l.price ∧ 0 < l.quantity
  · by_cases ha : ∀ l ∈ b.asks, 0 < l.price ∧ 0 < l.quantity
    · rw [if_neg (not_not.mpr hb), if_neg (not_not.mpr ha),
        decide_eq_true hb, decide_eq_true ha]
      cases b.bids <;> cases b.asks <;> simp
    · rw [if_neg (not_not.mpr hb), if_pos ha, decide_eq_false ha]
      simp
  · rw [if_pos hb, decide_eq_false hb]
    simp

lemma validateOrderBook_iff (now : ℚ) (u : OrderBookUpdate) :
    validateOrderBook now u = true ↔
      (now - u.timestamp ≤ 60 ∧
       (∀ l ∈ u.data.bids, 0 < l.price ∧ 0 < l.quantity) ∧
       (∀ l ∈ u.data.asks, 0 < l.price ∧ 0 < l.quantity) ∧
       (∀ bb ∈ u.data.bids.head?, ∀ aa ∈ u.data.asks.head?,
          bb.price < aa.price) ∧
       0 ≤ u.confidence ∧ u.confidence ≤ 1) := by
  unfold validateOrderBook checkDataFreshness
  rw [checkOrderBookConsistency_eq]
  simp only [Bool.and_eq_true, Bool.not_eq_true', decide_eq_false_iff_not,
    decide_eq_true_eq, not_or, not_lt]
  tauto

lemma pushOrderBook_fst (p : MarketDataPipeline) (now : ℚ)
    (u : OrderBookUpdate) :
    (p.pushOrderBook now u).1 = validateOrderBook now u := by
  unfold MarketDataPipeline.pushOrderBook
  cases hvv : validateOrderBook now u <;> simp [hvv]

/-- The claim of C2 fails on the code: `checkOrderBookConsistency` performs
no ordering and no non-emptiness check, so a book with non-decreasing bids
`[99, 100]` (asks `[101, 102]`) is accepted, and so is a book with both
sides empty. -/
theorem C2_counterexample :
    (MarketDataPipeline.create.pushOrderBook 0
      { data := { bids := [{ price := 99, quantity := 1 },
                           { price := 100, quantity := 1 }],
                  asks := [{ price := 101, quantity := 1 },
                           { price := 102, quantity := 1 }],
                  timestamp := 0 },
        timestamp := 0, source := "Binance", confidence := 1 }).1 = true ∧
    (MarketDataPipeline.create.pushOrderBook 0
      { data := { bids := [], asks := [], timestamp := 0 },
        timestamp := 0, source := "Binance", confidence := 1 }).1 = true := by
  constructor
  · rw [pushOrderBook_fst, validateOrderBook_iff]
    refine ⟨by norm_num, ?_, ?_, ?_, by norm_num, by norm_num⟩
    · intro l hl
      simp only [List.mem_cons, List.not_mem_nil, or_false] at hl
      rcases hl with rfl | rfl <;> constructor <;> norm_num
    · intro l hl
      simp only [List.mem_cons, List.not_mem_nil, or_false] at hl
      rcases hl with rfl | rfl <;> constructor <;> norm_num
    · intro bb hbb aa haa
      simp only [List.head?_cons, Option.mem_def, Option.some.injEq] at hbb haa
      rw [← hbb, ← haa]
      norm_num
  · rw [pushOrderBook_fst, validateOrderBook_iff]
    refine ⟨by norm_num, by simp, by simp, by simp, by norm_num, by norm_num⟩

/-- C2 (amended): `pushOrderBook` accepts (and enqueues) exactly when the
snapshot is fresh, its confidence lies in `[0,1]`, every level on both sides
has positive price and quantity, and — only when both sides are non-empty —
the best bid is strictly below the best ask.  No ordering within a side and
no non-emptiness is required, so bids `[100,99]`/asks `[101,102]` and also
bids `[99,100]` are accepted; a crossed book (best bid ≥ best ask) is
rejected, and on rejection the queue is unchanged. -/
theorem C2_order_book_validation (p : MarketDataPipeline) (now : ℚ)
    (u : OrderBookUpdate) :
    ((p.pushOrderBook now u).1 = true ↔
      (now - u.timestamp ≤ 60 ∧
       (∀ l ∈ u.data.bids, 0 < l.price ∧ 0 < l.quantity) ∧
       (∀ l ∈ u.data.asks, 0 < l.price ∧ 0 < l.quantity) ∧
       (∀ bb ∈ u.data.bids.head?, ∀ aa ∈ u.data.asks.head?,
          bb.price < aa.price) ∧
       0 ≤ u.confidence ∧ u.confidence ≤ 1)) ∧
    (p.pushOrderBook now u).2.orderBookQueue =
      (if (p.pushOrderBook now u).1 = true
       then pushToQueue p.maxQueueSize p.orderBookQueue u
       else p.orderBookQueue) := by
  constructor
  · rw [pushOrderBook_fst]
    exact validateOrderBook_iff now u
  · unfold MarketDataPipeline.pushOrderBook
    cases hvv : validateOrderBook now u <;> simp [hvv]

/-- Witness for C2's amended theorem: the unsorted-bids book is accepted and
lands in the order-book queue. -/
theorem C2_order_book_validation_witness :
    (MarketDataPipeline.create.pushOrderBook 0
      { data := { bids := [{ price := 100, quantity := 1 },
                           { price := 99, quantity := 1 }],
                  asks := [{ price := 101, quantity := 1 },
                           { price := 102, quantity := 1 }],
                  timestamp := 0 },
        timestamp := 0, source := "Binance", confidence := 1 }).2.orderBookQueue =
      pushToQueue 1000 []
        { data := { bids := [{ price := 100, quantity := 1 },
                             { price := 99, quantity := 1 }],
                    asks := [{ price := 101, quantity := 1 },
                             { price := 102, quantity := 1 }],
                    timestamp := 0 },
          timestamp := 0, source := "Binance", confidence := 1 } := by
  have hacc : (MarketDataPipeline.create.pushOrderBook 0
      { data := { bids := [{ price := 100, quantity := 1 },
                           { price := 99, quantity := 1 }],
                  asks := [{ price := 101, quantity := 1 },
                           { price := 102, quantity := 1 }],
                  timestamp := 0 },
        timestamp := 0, source := "Binance", confidence := 1 }).1 = true := by
    rw [pushOrderBook_fst, validateOrderBook_iff]
    refine ⟨by norm_num, ?_, ?_, ?_, by norm_num, by norm_num⟩
    · intro l hl
      simp only [List.mem_cons, List.not_mem_nil, or_false] at hl
      rcases hl with rfl | rfl <;> constructor <;> norm_num
    · intro l hl
      simp only [List.mem_cons, List.not_mem_nil, or_false] at hl
      rcases hl with rfl | rfl <;> constructor <;> norm_num
    · intro bb hbb aa haa
      simp only [List.head?_cons, Option.mem_def, Option.some.injEq] at hbb haa
      rw [← hbb, ← haa]
      norm_num
  have h := (C2_order_book_validation MarketDataPipeline.create 0
    { data := { bids := [{ price := 100, quantity := 1 },
                         { price := 99, quantity := 1 }],
                asks := [{ price := 101, quantity := 1 },
                         { price := 102, quantity := 1 }],
                timestamp := 0 },
      timestamp := 0, source := "Binance", confidence := 1 })
  rw [h.2, if_pos hacc]
  rfl

/-! ## Claim C9 — sentiment decay -/

/-- The claim of C9 fails on the code at confidence 0: two observations with
identical score and confidence 0 but different ages get identical weight
(both 0), not strictly less for the older one. -/
theorem C9_counterexample :
    sentimentWeight 100
      { score := 0, confidence := 0, source := "Twitter", timestamp := 0,
        text := "" } =
    sentimentWeight 100
      { score := 0, confidence := 0, source := "Twitter", timestamp := 90,
        text := "" } ∧
    ¬ (sentimentWeight 100
        { score := 0, confidence := 0, source := "Twitter", timestamp := 0,
          text := "" } <
       sentimentWeight 100
        { score := 0, confidence := 0, source := "Twitter", timestamp := 90,
          text := "" }) := by
  constructor
  · simp [sentimentWeight]
  · simp [sentimentWeight]

/-- C9 (amended): `sourceSentiment` is the confidence-and-recency-weighted
mean with weight `confidence * exp(-age_seconds/3600)` (0 when there are no
observations or the total weight is not positive), and for two observations
with identical positive confidence the older one carries strictly less
weight; at confidence 0 the two weights coincide. -/
theorem C9_sentiment_decay (now : ℚ) (it1 it2 : SentimentData)
    (hconf : it1.confidence = it2.confidence) (hpos : 0 < it2.confidence)
    (hts : it1.timestamp < it2.timestamp) :
    sentimentWeight now it1 < sentimentWeight now it2 ∧
    calculateWeightedSentiment now [] = 0 := by
  constructor
  · unfold sentimentWeight
    rw [hconf]
    have hc : (0 : ℝ) < (it2.confidence : ℝ) := by exact_mod_cast hpos
    apply mul_lt_mul_of_pos_left _ hc
    apply Real.exp_lt_exp.mpr
    have h1 : ((it1.timestamp : ℚ) : ℝ) < ((it2.timestamp : ℚ) : ℝ) := by
      exact_mod_cast hts
    push_cast
    linarith
  · simp [calculateWeightedSentiment]

/-- Witness for C9's amended theorem: with confidence 1, an observation aged
10 seconds more weighs strictly less. -/
theorem C9_sentiment_decay_witness :
    (0 : ℚ) < 1 ∧ (-10 : ℚ) < 0 ∧
    (sentimentWeight 0
       { score := 0, confidence := 1, source := "News", timestamp := -10,
         text := "" } <
     sentimentWeight 0
       { score := 0, confidence := 1, source := "News", timestamp := 0,
         text := "" }) :=
  ⟨by norm_num, by norm_num,
   (C9_sentiment_decay 0
     { score := 0, confidence := 1, source := "News", timestamp := -10,
       text := "" }
     { score := 0, confidence := 1, source := "News", timestamp := 0,
       text := "" }
     rfl (by norm_num) (by norm_num)).1⟩

/-! ## Claim C6 — bounded queues -/

lemma pushToQueue_eq_drop {α : Type} (max : Nat) (hmax : 1 ≤ max)
    (q : List α) (x : α) (hq : q.length ≤ max) :
    pushToQueue max q x = (q ++ [x]).drop ((q.length + 1) - max) := by
  unfold pushToQueue
  by_cases h : max ≤ q.length
  · have hqe : q.length = max := le_antisymm hq h
    rw [if_pos h]
    cases q with
    | nil => simp at hqe; omega
    | cons a as =>
      have h1 : (a :: as).length + 1 - max = 1 := by
        rw [hqe]
        omega
      rw [h1]
      simp
  · rw [if_neg h]
    have h0 : q.length + 1 - max = 0 := by omega
    simp [h0]

lemma foldl_pushToQueue {α : Type} (max : Nat) (hmax : 1 ≤ max) :
    ∀ (xs : List α) (q : List α), q.length ≤ max →
      xs.foldl (pushToQueue max) q =
        (q ++ xs).drop ((q ++ xs).length - max) := by
  intro xs
  induction xs with
  | nil =>
    intro q hq
    simp [Nat.sub_eq_zero_of_le hq]
  | cons x xs ih =>
    intro q hq
    rw [List.foldl_cons]
    have hlen : (pushToQueue max q x).length ≤ max := by
      rw [pushToQueue_eq_drop max hmax q x hq]
      simp only [List.length_drop, List.length_append, List.length_cons,
        List.length_nil]
      omega
    rw [ih (pushToQueue max q x) hlen,
        pushToQueue_eq_drop max hmax q x hq]
    have hd : (q.length + 1) - max ≤ (q ++ [x]).length := by
      simp only [List.length_append, List.length_cons, List.length_nil]
      omega
    rw [← List.drop_append_of_le_length hd, List.drop_drop]
    have hassoc : (q ++ [x]) ++ xs = q ++ x :: xs := by simp
    rw [hassoc]
    congr 1
    simp only [List.length_drop, List.length_append, List.length_cons,
      List.length_nil]
    omega

/-- C6: a push into a queue already holding `maxQueueSize` items first evicts
the front (oldest) item; starting from any queue within the bound the queue
never exceeds `maxQueueSize` after any sequence of pushes, the content is
always the newest suffix of the push history, and pushing `maxQueueSize + 1`
items into an empty queue leaves exactly the last `maxQueueSize` of them. -/
theorem C6_bounded_queue (α : Type) (max : Nat) (hmax : 1 ≤ max) :
    (∀ (q : List α) (x : α), q.length ≤ max →
       (pushToQueue max q x).length ≤ max) ∧
    (∀ (q : List α) (x : α), q.length = max →
       pushToQueue max q x = q.tail ++ [x]) ∧
    (∀ (q xs : List α), q.length ≤ max →
       xs.foldl (pushToQueue max) q =
         (q ++ xs).drop ((q ++ xs).length - max)) ∧
    (∀ xs : List α, xs.length = max + 1 →
       xs.foldl (pushToQueue max) [] = xs.drop 1 ∧
       (xs.foldl (pushToQueue max) []).length = max) := by
  refine ⟨?_, ?_, ?_, ?_⟩
  · intro q x hq
    rw [pushToQueue_eq_drop max hmax q x hq]
    simp only [List.length_drop, List.length_append, List.length_cons,
      List.length_nil]
    omega
  · intro q x hq
    unfold pushToQueue
    rw [if_pos (le_of_eq hq.symm)]
  · intro q xs hq
    exact foldl_pushToQueue max hmax xs q hq
  · intro xs hxs
    have h := foldl_pushToQueue max hmax xs [] (by simp)
    rw [List.nil_append] at h
    rw [hxs] at h
    have h1 : max + 1 - max = 1 := by omega
    rw [h1] at h
    refine ⟨h, ?_⟩
    rw [h]
    simp [hxs]

/-- Witness for C6: with bound 2, pushing 0,1,2 into an empty queue leaves
`[1, 2]`. -/
theorem C6_bounded_queue_witness :
    1 ≤ 2 ∧ ([0, 1, 2] : List ℕ).foldl (pushToQueue 2) [] = [1, 2] :=
  ⟨by norm_num, by
    have h := ((C6_bounded_queue ℕ 2 (by norm_num)).2.2.2 [0, 1, 2]
      (by simp)).1
    simpa using h⟩

/-! ## Claim C8 — composite reliability -/

lemma pushBounded_getLastD {α : Type} (bound : Nat) (hb : 1 ≤ bound)
    (l : List α) (x d : α) :
    (pushBounded bound l x).getLastD d = x := by
  unfold pushBounded
  by_cases h : bound < (l ++ [x]).length
  · rw [if_pos h]
    cases l with
    | nil => simp at h; omega
    | cons a as => simp
  · rw [if_neg h]
    simp

/-- C8: for a source with `totalDataPoints > 0`, the newest quality sample
appended by `calculateMetrics` carries
`reliability = (completeness*0.3 + priceAccuracy*0.3 + volumeAccuracy*0.2 +
orderBookAccuracy*0.2)/100` with each component a percentage of
`totalDataPoints`; when completeness and all three accuracies are 100%, the
reliability is exactly 1. -/
theorem C8_reliability (historySize : Nat) (m : SourceMetrics) (now : ℚ)
    (hh : 1 ≤ historySize) (h0 : 0 < m.totalDataPoints) :
    ((m.calculateMetrics historySize now).history.getLastD
        default).sourceReliability =
      (((m.validDataPoints : ℚ) / m.totalDataPoints * 100) * (3 / 10) +
       ((m.accuratePricePoints : ℚ) / m.totalDataPoints * 100) * (3 / 10) +
       ((m.accurateVolumePoints : ℚ) / m.totalDataPoints * 100) * (1 / 5) +
       ((m.accurateOrderBookPoints : ℚ) / m.totalDataPoints * 100) * (1 / 5))
        / 100 ∧
    (m.validDataPoints = m.totalDataPoints →
     m.accuratePricePoints = m.totalDataPoints →
     m.accurateVolumePoints = m.totalDataPoints →
     m.accurateOrderBookPoints = m.totalDataPoints →
     ((m.calculateMetrics historySize now).history.getLastD
         default).sourceReliability = 1) := by
  have hne : ¬ (m.totalDataPoints = 0) := by omega
  have hmain :
      ((m.calculateMetrics historySize now).history.getLastD
          default).sourceReliability =
        (((m.validDataPoints : ℚ) / m.totalDataPoints * 100) * (3 / 10) +
         ((m.accuratePricePoints : ℚ) / m.totalDataPoints * 100) * (3 / 10) +
         ((m.accurateVolumePoints : ℚ) / m.totalDataPoints * 100) * (1 / 5) +
         ((m.accurateOrderBookPoints : ℚ) / m.totalDataPoints * 100) * (1 / 5))
          / 100 := by
    simp only [SourceMetrics.calculateMetrics, hne, ite_false, if_false]
    rw [pushBounded_getLastD historySize hh]
  refine ⟨hmain, ?_⟩
  intro h1 h2 h3 h4
  rw [hmain, h1, h2, h3, h4]
  have ht : ((m.totalDataPoints : ℚ)) ≠ 0 := by exact_mod_cast hne
  field_simp
  norm_num

/-- Witness for C8: a source with 5 of 5 points valid and all accuracy
counters at 5 has reliability exactly 1. -/
theorem C8_reliability_witness :
    (1 : ℕ) ≤ 1000 ∧ (0 : ℕ) < 5 ∧
    ((SourceMetrics.calculateMetrics 1000
        { history := [], latencyHistory := [], totalDataPoints := 5,
          validDataPoints := 5, rejectedDataPoints := 0,
          accuratePricePoints := 5, accurateVolumePoints := 5,
          accurateOrderBookPoints := 5 } 0).history.getLastD
        default).sourceReliability = 1 :=
  ⟨by norm_num, by norm_num,
   (C8_reliability 1000
      { history := [], latencyHistory := [], totalDataPoints := 5,
        validDataPoints := 5, rejectedDataPoints := 0,
        accuratePricePoints := 5, accurateVolumePoints := 5,
        accurateOrderBookPoints := 5 } 0
      (by norm_num) (by norm_num)).2 rfl rfl rfl rfl⟩

/-! ## Claim C7 — push bookkeeping -/

lemma calculateMetrics_totalDataPoints (hs : Nat) (m : SourceMetrics)
    (now : ℚ) :
    (m.calculateMetrics hs now).totalDataPoints = m.totalDataPoints := by
  unfold SourceMetrics.calculateMetrics
  split <;> rfl

lemma calculateMetrics_validDataPoints (hs : Nat) (m : SourceMetrics)
    (now : ℚ) :
    (m.calculateMetrics hs now).validDataPoints = m.validDataPoints := by
  unfold SourceMetrics.calculateMetrics
  split <;> rfl

lemma calculateMetrics_rejectedDataPoints (hs : Nat) (m : SourceMetrics)
    (now : ℚ) :
    (m.calculateMetrics hs now).rejectedDataPoints = m.rejectedDataPoints := by
  unfold SourceMetrics.calculateMetrics
  split <;> rfl

lemma calculateMetrics_latencyHistory (hs : Nat) (m : SourceMetrics)
    (now : ℚ) :
    (m.calculateMetrics hs now).latencyHistory = m.latencyHistory := by
  unfold SourceMetrics.calculateMetrics
  split <;> rfl

/-- C7: a tick failing validation is rejected with exactly one rejected data
point recorded against its source (valid count, latency history and the
market-data queue untouched, other sources untouched); a tick passing
validation is accepted with one latency sample and one valid data point
recorded and the tick enqueued. -/
theorem C7_push_market_data (p : MarketDataPipeline) (now : ℚ)
    (d : MarketDataUpdate) :
    (validateMarketData now d = false →
       (p.pushMarketData now d).1 = false ∧
       (p.pushMarketData now d).2.marketDataQueue = p.marketDataQueue ∧
       ((p.pushMarketData now d).2.qualityTracker.sourceMetrics
           d.source).rejectedDataPoints =
         (p.qualityTracker.sourceMetrics d.source).rejectedDataPoints + 1 ∧
       ((p.pushMarketData now d).2.qualityTracker.sourceMetrics
           d.source).validDataPoints =
         (p.qualityTracker.sourceMetrics d.source).validDataPoints ∧
       ((p.pushMarketData now d).2.qualityTracker.sourceMetrics
           d.source).totalDataPoints =
         (p.qualityTracker.sourceMetrics d.source).totalDataPoints + 1 ∧
       ((p.pushMarketData now d).2.qualityTracker.sourceMetrics
           d.source).latencyHistory =
         (p.qualityTracker.sourceMetrics d.source).latencyHistory ∧
       (∀ s, s ≠ d.source →
          (p.pushMarketData now d).2.qualityTracker.sourceMetrics s =
            p.qualityTracker.sourceMetrics s)) ∧
    (validateMarketData now d = true →
       (p.pushMarketData now d).1 = true ∧
       (p.pushMarketData now d).2.marketDataQueue =
         pushToQueue p.maxQueueSize p.marketDataQueue d ∧
       ((p.pushMarketData now d).2.qualityTracker.sourceMetrics
           d.source).validDataPoints =
         (p.qualityTracker.sourceMetrics d.source).validDataPoints + 1 ∧
       ((p.pushMarketData now d).2.qualityTracker.sourceMetrics
           d.source).rejectedDataPoints =
         (p.qualityTracker.sourceMetrics d.source).rejectedDataPoints ∧
       ((p.pushMarketData now d).2.qualityTracker.sourceMetrics
           d.source).totalDataPoints =
         (p.qualityTracker.sourceMetrics d.source).totalDataPoints + 1 ∧
       ((p.pushMarketData now d).2.qualityTracker.sourceMetrics
           d.source).latencyHistory =
         pushBounded p.qualityTracker.historySize
           (p.qualityTracker.sourceMetrics d.source).latencyHistory
           (now - d.timestamp) ∧
       (∀ s, s ≠ d.source →
          (p.pushMarketData now d).2.qualityTracker.sourceMetrics s =
            p.qualityTracker.sourceMetrics s)) := by
  constructor
  · intro hv
    refine ⟨?_, ?_, ?_, ?_, ?_, ?_, ?_⟩
    · simp [MarketDataPipeline.pushMarketData, hv]
    · simp [MarketDataPipeline.pushMarketData, hv]
    · simp [MarketDataPipeline.pushMarketData, hv,
        DataQualityTracker.recordDataPoint, SourceMetrics.recordDataPoint,
        calculateMetrics_rejectedDataPoints]
    · simp [MarketDataPipeline.pushMarketData, hv,
        DataQualityTracker.recordDataPoint, SourceMetrics.recordDataPoint,
        calculateMetrics_validDataPoints]
    · simp [MarketDataPipeline.pushMarketData, hv,
        DataQualityTracker.recordDataPoint, SourceMetrics.recordDataPoint,
        calculateMetrics_totalDataPoints]
    · simp [MarketDataPipeline.pushMarketData, hv,
        DataQualityTracker.recordDataPoint, SourceMetrics.recordDataPoint,
        calculateMetrics_latencyHistory]
    · intro s hs
      simp [MarketDataPipeline.pushMarketData, hv,
        DataQualityTracker.recordDataPoint, hs]
  · intro hv
    refine ⟨?_, ?_, ?_, ?_, ?_, ?_, ?_⟩
    · simp [MarketDataPipeline.pushMarketData, hv]
    · simp [MarketDataPipeline.pushMarketData, hv]
    · simp [MarketDataPipeline.pushMarketData, hv,
        DataQualityTracker.recordDataPoint, SourceMetrics.recordDataPoint,
        DataQualityTracker.recordLatency, SourceMetrics.recordLatency,
        calculateMetrics_validDataPoints]
    · simp [MarketDataPipeline.pushMarketData, hv,
        DataQualityTracker.recordDataPoint, SourceMetrics.recordDataPoint,
        DataQualityTracker.recordLatency, SourceMetrics.recordLatency,
        calculateMetrics_rejectedDataPoints]
    · simp [MarketDataPipeline.pushMarketData, hv,
        DataQualityTracker.recordDataPoint, SourceMetrics.recordDataPoint,
        DataQualityTracker.recordLatency, SourceMetrics.recordLatency,
        calculateMetrics_totalDataPoints]
    · simp [MarketDataPipeline.pushMarketData, hv,
        DataQualityTracker.recordDataPoint, SourceMetrics.recordDataPoint,
        DataQualityTracker.recordLatency, SourceMetrics.recordLatency,
        calculateMetrics_latencyHistory, calculateMetrics_totalDataPoints]
    · intro s hs
      simp [MarketDataPipeline.pushMarketData, hv,
        DataQualityTracker.recordDataPoint, DataQualityTracker.recordLatency,
        hs]

/-- Witness for C7: on the fresh pipeline, a tick with confidence 2 is
rejected with one rejected point recorded and nothing enqueued, and a valid
tick is accepted and enqueued with one valid point. -/
theorem C7_push_market_data_witness :
    ((MarketDataPipeline.create.pushMarketData 0
        { data := { open_ := 1, high := 1, low := 1, close := 1, volume := 1,
                    timestamp := 0 },
          timestamp := 0, source := "Binance", confidence := 2 }).1 = false ∧
     ((MarketDataPipeline.create.pushMarketData 0
        { data := { open_ := 1, high := 1, low := 1, close := 1, volume := 1,
                    timestamp := 0 },
          timestamp := 0, source := "Binance",
          confidence := 2 }).2.qualityTracker.sourceMetrics
          "Binance").rejectedDataPoints =
       (MarketDataPipeline.create.qualityTracker.sourceMetrics
          "Binance").rejectedDataPoints + 1) ∧
    ((MarketDataPipeline.create.pushMarketData 0
        { data := { open_ := 1, high := 1, low := 1, close := 1, volume := 1,
                    timestamp := 0 },
          timestamp := 0, source := "Binance", confidence := 1 }).1 = true ∧
     ((MarketDataPipeline.create.pushMarketData 0
        { data := { open_ := 1, high := 1, low := 1, close := 1, volume := 1,
                    timestamp := 0 },
          timestamp := 0, source := "Binance",
          confidence := 1 }).2.qualityTracker.sourceMetrics
          "Binance").validDataPoints =
       (MarketDataPipeline.create.qualityTracker.sourceMetrics
          "Binance").validDataPoints + 1) := by
  have hbad := (C7_push_market_data MarketDataPipeline.create 0
    { data := { open_ := 1, high := 1, low := 1, close := 1, volume := 1,
                timestamp := 0 },
      timestamp := 0, source := "Binance", confidence := 2 }).1
    (by norm_num [validateMarketData, checkDataFreshness,
      checkDataConsistency])
  have hgood := (C7_push_market_data MarketDataPipeline.create 0
    { data := { open_ := 1, high := 1, low := 1, close := 1, volume := 1,
                timestamp := 0 },
      timestamp := 0, source := "Binance", confidence := 1 }).2
    (by norm_num [validateMarketData, checkDataFreshness,
      checkDataConsistency])
  exact ⟨⟨hbad.1, hbad.2.2.1⟩, ⟨hgood.1, hgood.2.2.1⟩⟩

/-! ## Claim C3 — sentiment momentum -/

lemma mem_insertByTimestampDesc (x y : SentimentData) :
    ∀ l : List SentimentData,
      (y ∈ insertByTimestampDesc x l ↔ y = x ∨ y ∈ l) := by
  intro l
  induction l with
  | nil => simp [insertByTimestampDesc]
  | cons a as ih =>
    unfold insertByTimestampDesc
    by_cases hax : a.timestamp ≤ x.timestamp
    · rw [if_pos hax]
      simp [List.mem_cons]
    · rw [if_neg hax]
      simp [List.mem_cons, ih]
      tauto

lemma length_insertByTimestampDesc (x : SentimentData) :
    ∀ l : List SentimentData,
      (insertByTimestampDesc x l).length = l.length + 1 := by
  intro l
  induction l with
  | nil => rfl
  | cons a as ih =>
    unfold insertByTimestampDesc
    by_cases hax : a.timestamp ≤ x.timestamp
    · rw [if_pos hax]
      rfl
    · rw [if_neg hax]
      simp [ih]

lemma pairwise_insertByTimestampDesc (x : SentimentData) :
    ∀ l : List SentimentData,
      l.Pairwise (fun a b => b.timestamp ≤ a.timestamp) →
      (insertByTimestampDesc x l).Pairwise
        (fun a b => b.timestamp ≤ a.timestamp) := by
  intro l
  induction l with
  | nil =>
    intro _
    simp [insertByTimestampDesc]
  | cons a as ih =>
    intro h
    rw [List.pairwise_cons] at h
    unfold insertByTimestampDesc
    by_cases hax : a.timestamp ≤ x.timestamp
    · rw [if_pos hax]
      rw [List.pairwise_cons]
      refine ⟨?_, ?_⟩
      · intro b hb
        rcases List.mem_cons.mp hb with rfl | hb'
        · exact hax
        · exact le_trans (h.1 b hb') hax
      · rw [List.pairwise_cons]
        exact h
    · rw [if_neg hax]
      rw [List.pairwise_cons]
      refine ⟨?_, ih h.2⟩
      intro b hb
      rcases (mem_insertByTimestampDesc x b as).mp hb with rfl | hb'
      · exact le_of_lt (not_le.mp hax)
      · exact h.1 b hb'

lemma mem_sortByTimestampDesc (y : SentimentData) (l : List SentimentData) :
    y ∈ sortByTimestampDesc l ↔ y ∈ l := by
  unfold sortByTimestampDesc
  induction l with
  | nil => simp
  | cons a as ih =>
    simp only [List.foldr_cons, mem_insertByTimestampDesc, ih, List.mem_cons]

lemma length_sortByTimestampDesc (l : List SentimentData) :
    (sortByTimestampDesc l).length = l.length := by
  unfold sortByTimestampDesc
  induction l with
  | nil => rfl
  | cons a as ih =>
    simp only [List.foldr_cons, length_insertByTimestampDesc, ih,
      List.length_cons]

lemma pairwise_sortByTimestampDesc (l : List SentimentData) :
    (sortByTimestampDesc l).Pairwise (fun a b => b.timestamp ≤ a.timestamp) := by
  unfold sortByTimestampDesc
  induction l with
  | nil => simp
  | cons a as ih => exact pairwise_insertByTimestampDesc a _ ih

lemma getRecentSentiments_head_max (a : SentimentAnalyzer) (count : Nat)
    (hc : 1 ≤ count) (x : SentimentData)
    (hx : x ∈ a.twitterData ++ a.redditData ++ a.newsData) :
    x.timestamp ≤ ((a.getRecentSentiments count).headD default).timestamp := by
  simp only [SentimentAnalyzer.getRecentSentiments]
  have hmem : x ∈ sortByTimestampDesc
      (a.twitterData ++ a.redditData ++ a.newsData) :=
    (mem_sortByTimestampDesc x _).mpr hx
  have hpw := pairwise_sortByTimestampDesc
    (a.twitterData ++ a.redditData ++ a.newsData)
  cases hs : sortByTimestampDesc (a.twitterData ++ a.redditData ++ a.newsData)
    with
  | nil =>
    rw [hs] at hmem
    simp at hmem
  | cons h t =>
    rw [hs] at hmem hpw
    rw [List.pairwise_cons] at hpw
    have hhead : x.timestamp ≤ h.timestamp := by
      rcases List.mem_cons.mp hmem with rfl | hx'
      · exact le_refl _
      · exact hpw.1 x hx'
    by_cases hcount : count < (h :: t).length
    · rw [if_pos hcount]
      cases count with
      | zero => omega
      | succ n => simpa using hhead
    · rw [if_neg hcount]
      simpa using hhead

/-- The claim of C3 fails on the code: with a store holding an older
observation of score 0 (timestamp 1) and a newer one of score 1
(timestamp 2), the code computes `back - front = 0 - 1 = -1` over the
newest-first list, while the claim (most recent minus 20th-most-recent)
predicts `1 - 0 = 1`. -/
theorem C3_counterexample :
    sentimentMomentum
      { twitterData := [{ score := 0, confidence := 1, source := "Twitter",
                          timestamp := 1, text := "" }],
        redditData := [{ score := 1, confidence := 1, source := "Reddit",
                         timestamp := 2, text := "" }],
        newsData := [] } = -1 ∧
    ¬ (sentimentMomentum
        { twitterData := [{ score := 0, confidence := 1, source := "Twitter",
                            timestamp := 1, text := "" }],
          redditData := [{ score := 1, confidence := 1, source := "Reddit",
                           timestamp := 2, text := "" }],
          newsData := [] } = 1) := by
  constructor
  · norm_num [sentimentMomentum, SentimentAnalyzer.getRecentSentiments,
      sortByTimestampDesc, insertByTimestampDesc]
  · norm_num [sentimentMomentum, SentimentAnalyzer.getRecentSentiments,
      sortByTimestampDesc, insertByTimestampDesc]

/-- C3 (amended): with at least 2 observations, the momentum entry equals the
score of the oldest of the (up to) 20 most recent observations minus the
score of the most recent one — the reverse of the claimed difference — and 0
with fewer than 2; the truncated list holds `min 20 n` observations and its
head is a most recent observation (every stored timestamp is bounded by the
head's). -/
theorem C3_sentiment_momentum (a : SentimentAnalyzer) :
    (2 ≤ (a.getRecentSentiments 20).length →
       sentimentMomentum a =
         ((a.getRecentSentiments 20).getLastD default).score -
           ((a.getRecentSentiments 20).headD default).score) ∧
    ((a.getRecentSentiments 20).length < 2 → sentimentMomentum a = 0) ∧
    (a.getRecentSentiments 20).length =
      min 20 (a.twitterData ++ a.redditData ++ a.newsData).length ∧
    (∀ x ∈ a.twitterData ++ a.redditData ++ a.newsData,
       x.timestamp ≤ ((a.getRecentSentiments 20).headD default).timestamp) := by
  refine ⟨?_, ?_, ?_, ?_⟩
  · intro h
    simp only [sentimentMomentum]
    rw [if_pos h]
  · intro h
    simp only [sentimentMomentum]
    rw [if_neg (by omega)]
  · simp only [SentimentAnalyzer.getRecentSentiments]
    by_cases hc : 20 < (sortByTimestampDesc
        (a.twitterData ++ a.redditData ++ a.newsData)).length
    · rw [if_pos hc]
      rw [List.length_take, length_sortByTimestampDesc]
    · rw [if_neg hc]
      rw [length_sortByTimestampDesc] at hc
      rw [length_sortByTimestampDesc, Nat.min_eq_right (by omega)]
  · intro x hx
    exact getRecentSentiments_head_max a 20 (by norm_num) x hx

/-- Witness for C3's amended theorem at the two-observation store of the
counterexample: the truncated list has length 2 and the momentum is the
oldest score minus the newest. -/
theorem C3_sentiment_momentum_witness :
    2 ≤ (SentimentAnalyzer.getRecentSentiments
      { twitterData := [{ score := 0, confidence := 1, source := "Twitter",
                          timestamp := 1, text := "" }],
        redditData := [{ score := 1, confidence := 1, source := "Reddit",
                         timestamp := 2, text := "" }],
        newsData := [] } 20).length ∧
    sentimentMomentum
      { twitterData := [{ score := 0, confidence := 1, source := "Twitter",
                          timestamp := 1, text := "" }],
        redditData := [{ score := 1, confidence := 1, source := "Reddit",
                         timestamp := 2, text := "" }],
        newsData := [] } =
      ((SentimentAnalyzer.getRecentSentiments
          { twitterData := [{ score := 0, confidence := 1, source := "Twitter",
                              timestamp := 1, text := "" }],
            redditData := [{ score := 1, confidence := 1, source := "Reddit",
                             timestamp := 2, text := "" }],
            newsData := [] } 20).getLastD default).score -
        ((SentimentAnalyzer.getRecentSentiments
            { twitterData := [{ score := 0, confidence := 1,
                                source := "Twitter", timestamp := 1,
                                text := "" }],
              redditData := [{ score := 1, confidence := 1,
                               source := "Reddit", timestamp := 2,
                               text := "" }],
              newsData := [] } 20).headD default).score := by
  have hlen : 2 ≤ (SentimentAnalyzer.getRecentSentiments
      { twitterData := [{ score := 0, confidence := 1, source := "Twitter",
                          timestamp := 1, text := "" }],
        redditData := [{ score := 1, confidence := 1, source := "Reddit",
                         timestamp := 2, text := "" }],
        newsData := [] } 20).length := by
    norm_num [SentimentAnalyzer.getRecentSentiments, sortByTimestampDesc,
      insertByTimestampDesc]
  exact ⟨hlen, (C3_sentiment_momentum _).1 hlen⟩

end NovaCrypt
